import Mathlib

/-!
Shallow embedding of the litmark bookmark-management backend
(Express/knex CRUD service) and verification of its specification.

The repository layer (`folder.repository.ts`), the folder and chip
controllers, the bcrypt wrapper and the two config-module variants are
translated directly from the TypeScript source.  Service-layer modules
that are absent from the snapshot (`folder.service.ts`,
`image.service.ts`, `chip.service.ts`) are modelled from the spec and
marked as such in their doc comments.

JavaScript runtime behaviour that the controllers rely on is made
explicit: `parseInt` / `parseFloat` are modelled as functions returning
`Option` (with `none` playing the role of `NaN`), and `||`-style
defaulting is modelled by `jsOr*` helpers that treat `0`, the empty
string, `null` and `undefined` as falsy.
-/

/-- Error object thrown via `customHttpError(status, message)` in the
TypeScript source; the centralized error handler maps it to an HTTP
response with that status and message. -/
structure HttpError where
  status : Nat
  message : String
deriving DecidableEq, Repr

/-- `folderExceptionMessages` constants (the constants file is not part
of the snapshot; only the distinctness of the messages matters and the
keys are taken from the controller source). -/
def folderExceptionMessages.INVALID_ID : String := "folder:Invalid ID."
def folderExceptionMessages.NAME_REQUIRED : String := "folder:Name is required."
def folderExceptionMessages.SORT_INVALID : String := "folder:Invalid sort."
def folderExceptionMessages.FOLDER_NOT_FOUND : String := "folder:Folder does not exist."

/-- `chipExceptionMessages` constants, from the chip constants file in
the source. -/
def chipExceptionMessages.INVALID_ID : String := "Invalid ID."
def chipExceptionMessages.NAME_REQUIRED : String := "Name is required."
def chipExceptionMessages.CHIP_NOT_FOUND : String := "Chip does not exist."

/-- `authExceptionMessages.INVALID_CREDENTIALS` (constants file not in
the snapshot; the exact text is irrelevant to the claims). -/
def authExceptionMessages.INVALID_CREDENTIALS : String := "Invalid credentials."

/-- `imageExceptionMessages` stand-in for the not-found error raised by
the image service when `findImage` misses. -/
def imageExceptionMessages.IMAGE_NOT_FOUND : String := "Image does not exist."

/-- HTTP status codes used by the controllers (`http-status-codes`). -/
def StatusCodes.BAD_REQUEST : Nat := 400
def StatusCodes.UNAUTHORIZED : Nat := 401
def StatusCodes.NOT_FOUND : Nat := 404
def StatusCodes.OK : Nat := 200

/-! ## JavaScript primitives used by the controllers -/

/-- Numeric value of a list of decimal digit characters. -/
def digitsToNat (l : List Char) : Nat :=
  l.foldl (fun a c => 10 * a + (c.toNat - 48)) 0

/-- Hex value of a list of hex digit characters. -/
def hexDigitsToNat (l : List Char) : Nat :=
  l.foldl (fun a c =>
    16 * a +
      (if c.isDigit then c.toNat - 48
       else if 'a' ≤ c ∧ c ≤ 'f' then c.toNat - 87
       else c.toNat - 55)) 0

def isJsSpace (c : Char) : Bool :=
  c = ' ' ∨ c = '\t' ∨ c = '\n' ∨ c = '\r'

def isHexDigit (c : Char) : Bool :=
  c.isDigit ∨ ('a' ≤ c ∧ c ≤ 'f') ∨ ('A' ≤ c ∧ c ≤ 'F')

/-- Model of the JavaScript builtin `parseInt(s)` with no radix
argument: leading whitespace is skipped, an optional sign is read, a
`0x`/`0X` prefix switches to hexadecimal, and the longest leading run
of digits is converted; `none` models `NaN` (no digits at all). -/
def jsParseInt (s : String) : Option Int :=
  let cs := s.data.dropWhile isJsSpace
  let (sign, cs) : Int × List Char :=
    match cs with
    | '-' :: rest => (-1, rest)
    | '+' :: rest => (1, rest)
    | _ => (1, cs)
  match cs with
  | '0' :: x :: rest =>
    if x = 'x' ∨ x = 'X' then
      let hex := rest.takeWhile isHexDigit
      if hex.isEmpty then none else some (sign * hexDigitsToNat hex)
    else
      let ds := ('0' :: x :: rest).takeWhile Char.isDigit
      some (sign * digitsToNat ds)
  | _ =>
    let ds := cs.takeWhile Char.isDigit
    if ds.isEmpty then none else some (sign * digitsToNat ds)

/-- A parsed JavaScript number, kept as an exact unnormalized decimal
fraction `num / den` (`den` a positive power of ten).  Exactness means
double rounding at extreme magnitudes is not modelled; the `Infinity`
literal is outside the fragment the controllers are exercised on. -/
structure JsNumber where
  num : Int
  den : Nat
deriving DecidableEq, Repr

/-- The numeric value is zero (JavaScript falsiness of a number other
than `NaN`; covers `-0`). -/
def JsNumber.isZero (a : JsNumber) : Bool :=
  a.num = 0

/-- Numeric equality with an integer (`num / den = n`), as SQL compares
the float id against stored integer ids. -/
def JsNumber.eqInt (a : JsNumber) (n : Int) : Bool :=
  a.num = n * (a.den : Int)

/-- JavaScript falsiness of a `parseFloat` result: `NaN` or zero. -/
def jsFalsyNum (a : Option JsNumber) : Bool :=
  match a with
  | none => true
  | some q => q.isZero

/-- Exponent part after `e`/`E`: optional sign then digits; an
unparsable exponent contributes nothing (as in `parseFloat("3e")`). -/
def jsExpPart (r : List Char) : Int :=
  let (esign, r) : Int × List Char :=
    match r with
    | '-' :: rr => (-1, rr)
    | '+' :: rr => (1, rr)
    | _ => (1, r)
  let ds := r.takeWhile Char.isDigit
  if ds.isEmpty then 0 else esign * digitsToNat ds

/-- Model of the JavaScript builtin `parseFloat(s)` on decimal
numerals: leading whitespace skipped, optional sign, digits with an
optional fractional part and an optional exponent; `none` models
`NaN`. -/
def jsParseFloat (s : String) : Option JsNumber :=
  let cs := s.data.dropWhile isJsSpace
  let (sign, cs) : Int × List Char :=
    match cs with
    | '-' :: rest => (-1, rest)
    | '+' :: rest => (1, rest)
    | _ => (1, cs)
  let intPart := cs.takeWhile Char.isDigit
  let rest := cs.dropWhile Char.isDigit
  let (fracPart, rest) : List Char × List Char :=
    match rest with
    | '.' :: r => (r.takeWhile Char.isDigit, r.dropWhile Char.isDigit)
    | _ => ([], rest)
  if intPart.isEmpty ∧ fracPart.isEmpty then none
  else
    let mantissa : Int :=
      (digitsToNat intPart : Int) * (10 : Int) ^ fracPart.length +
        (digitsToNat fracPart : Int)
    let exp : Int :=
      match rest with
      | 'e' :: r => jsExpPart r
      | 'E' :: r => jsExpPart r
      | _ => 0
    if 0 ≤ exp then
      some { num := sign * mantissa * (10 : Int) ^ exp.toNat,
             den := (10 : Nat) ^ fracPart.length }
    else
      some { num := sign * mantissa,
             den := (10 : Nat) ^ (fracPart.length + (-exp).toNat) }

/-- JavaScript `a || b` for an optional string `a` (absent and `""` are
falsy). -/
def jsOrStr (a : Option String) (b : String) : String :=
  match a with
  | none => b
  | some s => if s = "" then b else s

/-- JavaScript `a || b` for an optional number `a` (absent and `0` are
falsy). -/
def jsOrInt (a : Option Int) (b : Int) : Int :=
  match a with
  | none => b
  | some n => if n = 0 then b else n

/-- JavaScript `a || null` for an optional number (absent and `0`
collapse to `null`). -/
def jsOrNull (a : Option Int) : Option Int :=
  match a with
  | none => none
  | some n => if n = 0 then none else some n

/-! ## Data model -/

/-- A row of the `folders` table (columns from the folder model and the
repository queries). -/
structure FolderRow where
  id : Int
  name : String
  image_id : Int
  user_id : Int
  folder_id : Option Int
  isdeleted : Bool
  created_by : String
  updated_by : String
deriving DecidableEq, Repr

/-- A row of the `images` table. -/
structure ImageRow where
  id : Int
  url : String
  type : String
  name : String
  isdeleted : Bool
deriving DecidableEq, Repr

/-- A row of the `chips` table. -/
structure ChipRow where
  id : Int
  name : String
  user_id : Int
  folder_id : Int
  isdeleted : Bool
  created_by : String
  updated_by : String
deriving DecidableEq, Repr

/-- The relational store: the tables the folder/chip/image modules
touch, plus the id sequences backing `insert ... returning('id')`. -/
structure Db where
  folders : List FolderRow
  images : List ImageRow
  chips : List ChipRow
  nextFolderId : Int
  nextImageId : Int
  nextChipId : Int
deriving Repr

/-- Projection returned by the folder read queries: the selected
columns `id, name, image_id, user_id, folder_id` plus
`images.url as image_url` from the left join. -/
structure FolderView where
  id : Int
  name : String
  image_id : Int
  user_id : Int
  folder_id : Option Int
  image_url : Option String
deriving DecidableEq, Repr

/-- `leftJoin('images', 'folders.image_id', 'images.id')`: the joined
`images.url`, `none` when no image row matches. -/
def joinImageUrl (db : Db) (image_id : Int) : Option String :=
  (db.images.find? (fun i => i.id = image_id)).map (fun i => i.url)

/-- The selected columns of a folder row under the left join. -/
def folderView (db : Db) (r : FolderRow) : FolderView :=
  { id := r.id, name := r.name, image_id := r.image_id,
    user_id := r.user_id, folder_id := r.folder_id,
    image_url := joinImageUrl db r.image_id }

/-! ## folder.repository.ts -/

/-- `fetchAllParent(user_id)`: folders of the user with `folder_id`
null and `isdeleted` false, left-joined with the image url. -/
def fetchAllParent (user_id : Int) (db : Db) : List FolderView :=
  (db.folders.filter
    (fun r => r.user_id = user_id ∧ r.folder_id = none ∧ r.isdeleted = false)).map
    (folderView db)

/-- `fetchAllNested(user_id, parentFolderId)`: folders of the user with
`folder_id = parentFolderId` and `isdeleted` false. -/
def fetchAllNested (user_id : Int) (parentFolderId : Int) (db : Db) :
    List FolderView :=
  (db.folders.filter
    (fun r => r.user_id = user_id ∧ r.folder_id = some parentFolderId ∧
      r.isdeleted = false)).map (folderView db)

/-- `fetchById(folderId)`: first row with that id and `isdeleted`
false (`.first()`), or nothing. -/
def fetchById (folderId : Int) (db : Db) : Option FolderView :=
  (db.folders.find? (fun r => r.id = folderId ∧ r.isdeleted = false)).map
    (folderView db)

/-- Folder data inserted by `create` (all `FolderModel` fields except
the generated id). -/
structure FolderData where
  name : String
  image_id : Int
  user_id : Int
  folder_id : Option Int
  isdeleted : Bool
  created_by : String
  updated_by : String
deriving DecidableEq, Repr

/-- `create(folderData)`: inserts the row and returns the generated id
as `{ folder_Id }`. -/
def create (folderData : FolderData) (db : Db) : Db × Int :=
  let row : FolderRow :=
    { id := db.nextFolderId, name := folderData.name,
      image_id := folderData.image_id, user_id := folderData.user_id,
      folder_id := folderData.folder_id, isdeleted := folderData.isdeleted,
      created_by := folderData.created_by, updated_by := folderData.updated_by }
  ({ db with folders := db.folders ++ [row],
             nextFolderId := db.nextFolderId + 1 }, db.nextFolderId)

/-- The object the folder patch controller passes to `update`: the
fetched columns (minus the deleted `image_url`) with `name`,
`image_id` and `updated_by` merged over them. -/
structure FolderUpdateData where
  id : Int
  name : String
  image_id : Int
  user_id : Int
  folder_id : Option Int
  updated_by : String
deriving DecidableEq, Repr

/-- `update(folderData, folderId)`: `where('id', folderId).update(folderData)`
sets exactly the supplied columns on every matching row. -/
def update (folderData : FolderUpdateData) (folderId : Int) (db : Db) : Db :=
  { db with folders := db.folders.map (fun r =>
      if r.id = folderId then
        { r with id := folderData.id, name := folderData.name,
                 image_id := folderData.image_id,
                 user_id := folderData.user_id,
                 folder_id := folderData.folder_id,
                 updated_by := folderData.updated_by }
      else r) }

/-- `remove(folderId)`: `where('id', folderId).update('isdeleted', true)`. -/
def remove (folderId : Int) (db : Db) : Db :=
  { db with folders := db.folders.map (fun r =>
      if r.id = folderId then { r with isdeleted := true } else r) }

/-- Descriptor of the query issued by the repository `sortBy`: which
column is ordered on, in which direction, and the row filters.  The
claims about sorting concern which column and order reach the
repository, so the query is embedded by its parameters. -/
structure SortQuery where
  sortColumn : String
  userId : Int
  folderId : Int
  sortOrder : String
deriving DecidableEq, Repr

/-- `sortBy(sortBy, userId, folderId, sortOrder)` of
`folder.repository.ts`, embedded as the query descriptor it issues
(`orderBy('folders.' + sortBy, sortOrder)` over the user's non-deleted
folders under `folderId`). -/
def sortBy (sortColumn : String) (userId : Int) (folderId : Int)
    (sortOrder : String) : SortQuery :=
  { sortColumn := sortColumn, userId := userId, folderId := folderId,
    sortOrder := sortOrder }

/-! ## folder.service.ts (not in the snapshot) -/

/-- Modelled from the spec: `folder.service.ts` is missing from the
snapshot; `findAllFolders` composes the repository `fetchAllParent`. -/
def findAllFolders (userId : Int) (db : Db) : List FolderView :=
  fetchAllParent userId db

/-- Modelled from the spec: `findAllNestedFolders` composes the
repository `fetchAllNested`. -/
def findAllNestedFolders (userId : Int) (parentFolderId : Int) (db : Db) :
    List FolderView :=
  fetchAllNested userId parentFolderId db

/-- Modelled from the spec: `findFolderById` reads via the repository
`fetchById` and fails with `NotFound` when no non-deleted row exists
("`getFolder(folderId)` → single row or fails with `NotFound`"). -/
def findFolderById (folderId : Int) (db : Db) : Except HttpError FolderView :=
  match fetchById folderId db with
  | none =>
    .error ⟨StatusCodes.NOT_FOUND, folderExceptionMessages.FOLDER_NOT_FOUND⟩
  | some v => .ok v

/-- Modelled from the spec: `addFolders` inserts via the repository
`create` and returns the generated id. -/
def addFolders (folderData : FolderData) (db : Db) : Db × Int :=
  create folderData db

/-- Modelled from the spec: `updateFolder` persists via the repository
`update`. -/
def updateFolder (folderData : FolderUpdateData) (folderId : Int) (db : Db) :
    Db :=
  update folderData folderId db

/-- Modelled from the spec: `removeFolder` requires a prior existence
check — "the controller layer requires prior existence check, failing
with `NotFound` otherwise" — then soft-deletes via the repository
`remove`. -/
def removeFolder (folderId : Int) (db : Db) : Except HttpError Db :=
  match fetchById folderId db with
  | none =>
    .error ⟨StatusCodes.NOT_FOUND, folderExceptionMessages.FOLDER_NOT_FOUND⟩
  | some _ => .ok (remove folderId db)

/-- Modelled from the spec: `sortByDate` maps the `date` field to its
column on the repository `sortBy`. -/
def sortByDate (userId : Int) (folderId : Int) (sortOrder : String) :
    SortQuery :=
  sortBy "created_at" userId folderId sortOrder

/-- Modelled from the spec: `sortByAlphabet` maps the `alphabet` field
to the name column on the repository `sortBy` (the spec's sorted-order
property is stated on folder names). -/
def sortByAlphabet (userId : Int) (folderId : Int) (sortOrder : String) :
    SortQuery :=
  sortBy "name" userId folderId sortOrder

/-! ## image.service.ts (not in the snapshot) -/

/-- Image data passed to `saveImage` (all `ImageModel` fields except
the generated id). -/
structure ImageData where
  url : String
  type : String
  name : String
  isdeleted : Bool
deriving DecidableEq, Repr

/-- Modelled from the spec: `findImage(id)` returns the non-deleted
image row with that id or fails with `NotFound` (reads filter on the
soft-delete flag). -/
def findImage (imageId : Int) (db : Db) : Except HttpError ImageRow :=
  match db.images.find? (fun i => i.id = imageId ∧ i.isdeleted = false) with
  | none =>
    .error ⟨StatusCodes.NOT_FOUND, imageExceptionMessages.IMAGE_NOT_FOUND⟩
  | some i => .ok i

/-- Modelled from the spec: `saveImage(imageData, username)` inserts
the row with a generated id and returns the saved image (the
controllers read `image.id`). -/
def saveImage (imageData : ImageData) (_username : String) (db : Db) :
    Db × ImageRow :=
  let row : ImageRow :=
    { id := db.nextImageId, url := imageData.url, type := imageData.type,
      name := imageData.name, isdeleted := imageData.isdeleted }
  ({ db with images := db.images ++ [row], nextImageId := db.nextImageId + 1 },
   row)

/-- Modelled from the spec: `uploadImage(path)` of the image controller
uploads the local file to the external image-storage provider and
returns the stored URL; embedded as a tagging of the path. -/
def uploadImage (path : String) : String :=
  "cloudinary://" ++ path

/-! ## folder.controller.ts -/

/-- The authenticated user context injected into `req.body.user` by the
authentication middleware. -/
structure UserCtx where
  id : Int
  username : String
deriving DecidableEq, Repr

/-- A multipart upload (`req.file`): the temporary path and the
filename. -/
structure UploadedFile where
  path : String
  filename : String
deriving DecidableEq, Repr

/-- The default-image URL hard-coded in `isImage`. -/
def defaultFolderImageUrl : String :=
  "https://res.cloudinary.com/dxsqdqnoe/image/upload/v1709878273/litmark/xo5sncdhybhemuvacf4u.png"

/-- `isImage(username)` of the folder controller: try `findImage(1)`
and answer `1`; on failure save the placeholder image (type `folder`,
random-UUID name — the UUID is an input here) and answer its id. -/
def isImage (username : String) (uuid : String) (db : Db) : Int × Db :=
  match findImage 1 db with
  | .ok _ => (1, db)
  | .error _ =>
    let (db', image) := saveImage
      { type := "folder", url := defaultFolderImageUrl, name := uuid,
        isdeleted := false } username db
    (image.id, db')

/-- `postFolders`: on an uploaded file, uploads it and saves the image
row, storing its id into `req.body.image_id`; then builds the folder
data — whose `image_id` is `await isImage(user.username)` — and inserts
it.  Returns the new state and the created folder id. -/
def postFolders (name : String) (folder_id : Option Int) (user : UserCtx)
    (file : Option UploadedFile) (uuid : String) (db : Db) : Db × Int :=
  let (db1, _body_image_id) : Db × Option Int :=
    match file with
    | some f =>
      let imageUrl := uploadImage f.path
      let (db', image) := saveImage
        { url := imageUrl, type := "folder", name := f.filename,
          isdeleted := false } user.username db
      (db', some image.id)
    | none => (db, none)
  let (image_id, db2) := isImage user.username uuid db1
  let folderData : FolderData :=
    { name := name, user_id := user.id, image_id := image_id,
      folder_id := jsOrNull folder_id, isdeleted := false,
      created_by := user.username, updated_by := user.username }
  addFolders folderData db2

/-- `getAllnestedFolders`: `parseInt` the `:id` path parameter, fail
with `InvalidArgument` when it is `NaN`, otherwise list the nested
folders. -/
def getAllnestedFolders (idParam : String) (user : UserCtx) (db : Db) :
    Except HttpError (List FolderView) :=
  match jsParseInt idParam with
  | none =>
    .error ⟨StatusCodes.BAD_REQUEST, folderExceptionMessages.INVALID_ID⟩
  | some parentFolderId =>
    .ok (findAllNestedFolders user.id parentFolderId db)

/-- `patchFolders`: validate the id (`!folderId || isNaN(folderId)`)
and the name (`!name`); on an uploaded file save the image row (typed
`user` in the source) into `req.body.image_id`; fetch the current
folder, drop its `image_url`, merge `name`/`image_id`/`updated_by`
over it and persist. -/
def patchFolders (idParam : String) (name : Option String)
    (body_image_id : Option Int) (user : UserCtx)
    (file : Option UploadedFile) (db : Db) : Except HttpError Db :=
  match jsParseInt idParam with
  | none =>
    .error ⟨StatusCodes.BAD_REQUEST, folderExceptionMessages.INVALID_ID⟩
  | some folderId =>
    if folderId = 0 then
      .error ⟨StatusCodes.BAD_REQUEST, folderExceptionMessages.INVALID_ID⟩
    else if name = none ∨ name = some "" then
      .error ⟨StatusCodes.BAD_REQUEST, folderExceptionMessages.NAME_REQUIRED⟩
    else
      let (db1, image_id) : Db × Option Int :=
        match file with
        | some f =>
          let imageUrl := uploadImage f.path
          let (db', image) := saveImage
            { url := imageUrl, type := "user", name := f.filename,
              isdeleted := false } user.username db
          (db', some image.id)
        | none => (db, body_image_id)
      match findFolderById folderId db1 with
      | .error e => .error e
      | .ok currentFolder =>
        let curretImage := currentFolder.image_id
        let folderData : FolderUpdateData :=
          { id := currentFolder.id, name := (name.getD ""),
            image_id := jsOrInt image_id curretImage,
            user_id := currentFolder.user_id,
            folder_id := currentFolder.folder_id,
            updated_by := user.username }
        .ok (updateFolder folderData folderId db1)

/-- `deleteFolders`: validate the id (`!folderId || isNaN(folderId)`),
then `removeFolder`. -/
def deleteFolders (idParam : String) (db : Db) : Except HttpError Db :=
  match jsParseInt idParam with
  | none =>
    .error ⟨StatusCodes.BAD_REQUEST, folderExceptionMessages.INVALID_ID⟩
  | some folderId =>
    if folderId = 0 then
      .error ⟨StatusCodes.BAD_REQUEST, folderExceptionMessages.INVALID_ID⟩
    else removeFolder folderId db

/-- `getSortedFolders`: read `sort`, `folder_id` and `order` from the
query string (`order` defaulted with `|| 'asc'`), then dispatch on
`sort`: `date` and `alphabet` go to their service sorters, anything
else fails with `InvalidArgument`. -/
def getSortedFolders (sortQ : Option String) (folder_id : Int)
    (orderQ : Option String) (user : UserCtx) :
    Except HttpError SortQuery :=
  let sortOrder := jsOrStr orderQ "asc"
  match sortQ with
  | some "date" => .ok (sortByDate user.id folder_id sortOrder)
  | some "alphabet" => .ok (sortByAlphabet user.id folder_id sortOrder)
  | _ =>
    .error ⟨StatusCodes.BAD_REQUEST, folderExceptionMessages.SORT_INVALID⟩

/-! ## chip.service.ts (not in the snapshot) -/

/-- Modelled from the spec: `findChipById(chipId)` returns the
non-deleted chip row with that id, or nothing (the controller checks
`!currentChip`).  The id reaching it is the controller's `parseFloat`
result, so it is compared as a number against the stored integer ids,
as SQL does. -/
def findChipById (chipId : JsNumber) (db : Db) : Option ChipRow :=
  db.chips.find? (fun r => chipId.eqInt r.id ∧ r.isdeleted = false)

/-- Modelled from the spec: `updateChip(chipData, chipId)` persists the
merged row over every chip whose id matches. -/
def updateChip (chipData : ChipRow) (chipId : JsNumber) (db : Db) : Db :=
  { db with chips := db.chips.map (fun r =>
      if chipId.eqInt r.id then
        { r with name := chipData.name, user_id := chipData.user_id,
                 folder_id := chipData.folder_id,
                 isdeleted := chipData.isdeleted,
                 created_by := chipData.created_by,
                 updated_by := chipData.updated_by }
      else r) }

/-- Modelled from the spec: `removeChip(chipId)` sets the soft-delete
flag on every chip whose id matches. -/
def removeChip (chipId : JsNumber) (db : Db) : Db :=
  { db with chips := db.chips.map (fun r =>
      if chipId.eqInt r.id then { r with isdeleted := true } else r) }

/-! ## chip.controller.ts -/

/-- `patchChip`: `parseFloat` the `:id` parameter and reject falsy
values (`!chipId`: `NaN` and `0`), require a name, require the chip to
exist, then merge `name`/`updated_by` over the current row and
persist. -/
def patchChip (idParam : String) (name : Option String) (user : UserCtx)
    (db : Db) : Except HttpError Db :=
  let chipId := jsParseFloat idParam
  if jsFalsyNum chipId then
    .error ⟨StatusCodes.BAD_REQUEST, chipExceptionMessages.INVALID_ID⟩
  else if name = none ∨ name = some "" then
    .error ⟨StatusCodes.BAD_REQUEST, chipExceptionMessages.NAME_REQUIRED⟩
  else
    match findChipById (chipId.getD ⟨0, 1⟩) db with
    | none =>
      .error ⟨StatusCodes.NOT_FOUND, chipExceptionMessages.CHIP_NOT_FOUND⟩
    | some currentChip =>
      .ok (updateChip
        { currentChip with name := name.getD "", updated_by := user.username }
        (chipId.getD ⟨0, 1⟩) db)

/-- `deleteChip`: `parseFloat` the `:id` parameter and reject falsy
values (`!chipId`: `NaN` and `0`), require the chip to exist, then
soft-delete it. -/
def deleteChip (idParam : String) (_user : UserCtx) (db : Db) :
    Except HttpError Db :=
  let chipId := jsParseFloat idParam
  if jsFalsyNum chipId then
    .error ⟨StatusCodes.BAD_REQUEST, chipExceptionMessages.INVALID_ID⟩
  else
    match findChipById (chipId.getD ⟨0, 1⟩) db with
    | none =>
      .error ⟨StatusCodes.NOT_FOUND, chipExceptionMessages.CHIP_NOT_FOUND⟩
    | some _ => .ok (removeChip (chipId.getD ⟨0, 1⟩) db)

/-! ## utils/bcrypt.ts -/

/-- `isMatchingPassword(password, hashed_password)`: run
`bcrypt.compare` (the hashing primitive is an external collaborator,
abstracted as the `compare` argument) and throw
`Unauthorized`/invalid-credentials when it reports a mismatch;
otherwise return. -/
def isMatchingPassword (compare : String → String → Bool)
    (password hashed_password : String) : Except HttpError Unit :=
  if compare password hashed_password = false then
    .error ⟨StatusCodes.UNAUTHORIZED, authExceptionMessages.INVALID_CREDENTIALS⟩
  else .ok ()

/-! ## The two config-module variants -/

/-- A JavaScript value, as far as the config objects need: strings,
numbers, booleans, `undefined`, and objects with ordered fields. -/
inductive JsVal where
  | undef : JsVal
  | str : String → JsVal
  | num : Int → JsVal
  | bool : Bool → JsVal
  | obj : List (String × JsVal) → JsVal
deriving Repr

/-- The process environment: a partial map from variable names to
string values (`process.env.X` is a string or `undefined`). -/
def Env : Type := String → Option String

/-- `process.env.k` as a `JsVal`. -/
def envVal (env : Env) (k : String) : JsVal :=
  match env k with
  | some s => JsVal.str s
  | none => JsVal.undef

/-- `getActiveDatabase(db)` as written in the variant that reads
`process.env` directly (the variant whose `config.database` calls it).
`dirname` stands for `__dirname`. -/
def getActiveDatabase (env : Env) (dirname : String) (db : String) : JsVal :=
  if db = "mysql2" then
    JsVal.obj
      [("client", JsVal.str db),
       ("connection", JsVal.obj
         [("user", envVal env "DB_MYSQL_USER"),
          ("password", envVal env "DB_MYSQL_PASSWORD"),
          ("database", envVal env "DB_NAME"),
          ("host", JsVal.str (jsOrStr (env "DB_HOST") "127.0.0.1")),
          ("port", JsVal.num
            (jsOrInt ((env "DB_PORT").bind jsParseInt) 3306))])]
  else if db = "pg" then
    let devlopment := JsVal.obj
      [("connectionString", envVal env "POSTGRES_DB_URI"),
       ("ssl", JsVal.obj [("rejectUnauthorized", JsVal.bool false)])]
    let test := JsVal.obj
      [("host", envVal env "TEST_DB_HOST"),
       ("database", envVal env "TEST_DB_DATABASE"),
       ("user", envVal env "TEST_DB_USER"),
       ("password", envVal env "TEST_DB_PASSWORD"),
       ("port", envVal env "TEST_DB_PORT")]
    JsVal.obj
      [("client", JsVal.str db),
       ("connection", if env "NODE_ENV" = some "test" then test
                      else devlopment),
       ("migrations", JsVal.obj
         [("directory", JsVal.str (dirname ++ "/../migrations"))])]
  else JsVal.undef

/-- The `database` field of the config variant that nests raw
environment reads under `database` (the first config module in the
source). -/
def configDatabaseRawEnv (env : Env) : JsVal :=
  JsVal.obj
    [("DB_NAME", envVal env "DB_NAME"),
     ("POSTGRES_DB_URI", envVal env "POSTGRES_DB_URI"),
     ("TEST_DB_URI", envVal env "TEST_DB_URI"),
     ("TEST_DB_HOST", envVal env "TEST_DB_HOST"),
     ("TEST_DB_DATABASE", envVal env "TEST_DB_DATABASE"),
     ("TEST_DB_USER", envVal env "TEST_DB_USER"),
     ("TEST_DB_PASSWORD", envVal env "TEST_DB_PASSWORD"),
     ("TEST_DB_PORT", envVal env "TEST_DB_PORT")]

/-- The `database` field of the config variant that computes it as
`getActiveDatabase(process.env.ACTIVE_DB || '')` (the second config
module in the source). -/
def configDatabaseActive (env : Env) (dirname : String) : JsVal :=
  getActiveDatabase env dirname (jsOrStr (env "ACTIVE_DB") "")

/-! ## Sample states used by witnesses and counterexamples -/

/-- An empty store. -/
def emptyDb : Db :=
  { folders := [], images := [], chips := [], nextFolderId := 1,
    nextImageId := 1, nextChipId := 1 }

/-- The default placeholder image as a stored row with id 1. -/
def placeholderImage : ImageRow :=
  { id := 1, url := defaultFolderImageUrl, type := "folder",
    name := "placeholder", isdeleted := false }

/-- A store holding only the placeholder image. -/
def dbWithPlaceholder : Db :=
  { folders := [], images := [placeholderImage], chips := [],
    nextFolderId := 1, nextImageId := 2, nextChipId := 1 }

/-- A store holding the placeholder image and one folder with id 5. -/
def dbWithFolder5 : Db :=
  { folders := [{ id := 5, name := "Old", image_id := 1, user_id := 1,
                  folder_id := none, isdeleted := false,
                  created_by := "alice", updated_by := "alice" }],
    images := [placeholderImage], chips := [],
    nextFolderId := 6, nextImageId := 2, nextChipId := 1 }

/-- A folder-creation request carrying an uploaded image file, run
against the store that already holds the placeholder image. -/
def postFoldersUploadRun : Db × Int :=
  postFolders "Work" none ⟨1, "alice"⟩ (some ⟨"tmp/a.png", "a.png"⟩)
    "uuid-1" dbWithPlaceholder

/-- A folder-patch request carrying an uploaded image file, run against
the store holding folder 5 and the placeholder image. -/
def patchFoldersUploadRun : Except HttpError Db :=
  patchFolders "5" (some "New") none ⟨1, "alice"⟩
    (some ⟨"tmp/b.png", "b.png"⟩) dbWithFolder5

/-! ## Theorems -/

/-- C8: `isMatchingPassword` raises `Unauthorized` (401) with the
invalid-credentials message exactly when the hash comparison fails, and
returns without error exactly when it succeeds. -/
theorem isMatchingPassword_unauthorized_iff
    (cmp : String → String → Bool) (password hashed_password : String) :
    (isMatchingPassword cmp password hashed_password =
        .error ⟨StatusCodes.UNAUTHORIZED,
                authExceptionMessages.INVALID_CREDENTIALS⟩ ↔
      cmp password hashed_password = false) ∧
    (isMatchingPassword cmp password hashed_password = .ok () ↔
      cmp password hashed_password = true) := by
  unfold isMatchingPassword
  cases h : cmp password hashed_password <;> simp

/-- C9: the two config-module variants disagree on the `database`
field: with every environment variable unset, the variant nesting raw
env reads produces an object of `undefined` fields, while the variant
computing `getActiveDatabase(ACTIVE_DB || '')` produces `undefined`
itself. -/
theorem configDatabase_variants_differ :
    ∃ env : Env, ∀ dirname : String,
      configDatabaseRawEnv env ≠ configDatabaseActive env dirname := by
  refine ⟨fun _ => none, fun dirname h => ?_⟩
  have h2 : configDatabaseActive (fun _ => none) dirname = JsVal.undef := rfl
  rw [h2] at h
  exact JsVal.noConfusion h

/-- C5 counterexample: the claim says the order parameter ranges over
`{asc, desc}`, but the controller passes any supplied order string
through to the repository query unvalidated: with `order=banana` the
issued sort query carries order `banana`. -/
theorem getSortedFolders_order_unvalidated :
    getSortedFolders (some "date") 0 (some "banana") ⟨1, "alice"⟩ =
      .ok { sortColumn := "created_at", userId := 1, folderId := 0,
            sortOrder := "banana" } ∧
    "banana" ≠ "asc" ∧ "banana" ≠ "desc" :=
  ⟨rfl, by decide, by decide⟩

/-- C5 (amended): the sort field is restricted to the allow-list
`{date, alphabet}` (`date` mapped to the `created_at` column,
`alphabet` to the `name` column) and any unrecognized field fails with
`InvalidArgument` (400); the order parameter defaults to `asc` when
absent or empty and is otherwise passed through unvalidated. -/
theorem getSortedFolders_allowlist_and_default
    (sortQ orderQ : Option String) (folder_id : Int) (u : UserCtx) :
    (sortQ ≠ some "date" → sortQ ≠ some "alphabet" →
      getSortedFolders sortQ folder_id orderQ u =
        .error ⟨StatusCodes.BAD_REQUEST,
                folderExceptionMessages.SORT_INVALID⟩) ∧
    (getSortedFolders (some "date") folder_id orderQ u =
      .ok { sortColumn := "created_at", userId := u.id,
            folderId := folder_id, sortOrder := jsOrStr orderQ "asc" }) ∧
    (getSortedFolders (some "alphabet") folder_id orderQ u =
      .ok { sortColumn := "name", userId := u.id,
            folderId := folder_id, sortOrder := jsOrStr orderQ "asc" }) ∧
    jsOrStr none "asc" = "asc" := by
  refine ⟨?_, rfl, rfl, rfl⟩
  intro hd ha
  unfold getSortedFolders
  split
  · exact absurd rfl hd
  · exact absurd rfl ha
  · rfl

/-- C5 witness: the amended theorem applied at an unrecognized sort
field. -/
theorem getSortedFolders_allowlist_and_default_witness :
    getSortedFolders (some "bogus") 0 none ⟨1, "alice"⟩ =
      .error ⟨StatusCodes.BAD_REQUEST,
              folderExceptionMessages.SORT_INVALID⟩ :=
  (getSortedFolders_allowlist_and_default (some "bogus") none 0
    ⟨1, "alice"⟩).1 (by decide) (by decide)

/-- C6 counterexample: `0` is not a positive integer, yet
`getAllnestedFolders` accepts the path parameter `"0"` (its `parseInt`
is not `NaN`) and answers the query instead of failing with
`InvalidArgument`. -/
theorem getAllnestedFolders_accepts_zero :
    jsParseInt "0" = some 0 ∧ ¬ (0 : Int) > 0 ∧
    getAllnestedFolders "0" ⟨1, "alice"⟩ emptyDb = .ok [] :=
  ⟨rfl, by decide, rfl⟩

/-- C6 (amended): `getAllnestedFolders` fails with `InvalidArgument`
(400) exactly when `parseInt` of the path parameter is `NaN`; any
parsed integer — including zero and negatives — is accepted, and the
result is exactly the non-deleted folders of the authenticated user
whose parent equals the parsed integer. -/
theorem getAllnestedFolders_parse_and_filter (idParam : String)
    (u : UserCtx) (db : Db) :
    (jsParseInt idParam = none →
      getAllnestedFolders idParam u db =
        .error ⟨StatusCodes.BAD_REQUEST,
                folderExceptionMessages.INVALID_ID⟩) ∧
    (∀ pid : Int, jsParseInt idParam = some pid →
      getAllnestedFolders idParam u db =
        .ok (findAllNestedFolders u.id pid db) ∧
      ∀ v : FolderView, v ∈ findAllNestedFolders u.id pid db ↔
        ∃ r ∈ db.folders, r.user_id = u.id ∧ r.folder_id = some pid ∧
          r.isdeleted = false ∧ v = folderView db r) := by
  constructor
  · intro hnone
    unfold getAllnestedFolders
    rw [hnone]
  · intro pid hsome
    constructor
    · unfold getAllnestedFolders
      rw [hsome]
    · intro v
      unfold findAllNestedFolders fetchAllNested
      simp only [List.mem_map, List.mem_filter, decide_eq_true_eq]
      constructor
      · rintro ⟨r, ⟨hr, hu, hp, hd⟩, rfl⟩
        exact ⟨r, hr, hu, hp, hd, rfl⟩
      · rintro ⟨r, hr, hu, hp, hd, rfl⟩
        exact ⟨r, ⟨hr, hu, hp, hd⟩, rfl⟩

/-- C6 witness: the amended theorem at a `NaN` parameter and at the
parameter `"5"` over the empty store. -/
theorem getAllnestedFolders_parse_and_filter_witness :
    getAllnestedFolders "abc" ⟨1, "alice"⟩ emptyDb =
      .error ⟨StatusCodes.BAD_REQUEST,
              folderExceptionMessages.INVALID_ID⟩ ∧
    getAllnestedFolders "5" ⟨1, "alice"⟩ emptyDb =
      .ok (findAllNestedFolders 1 5 emptyDb) :=
  ⟨(getAllnestedFolders_parse_and_filter "abc" ⟨1, "alice"⟩ emptyDb).1 rfl,
   ((getAllnestedFolders_parse_and_filter "5" ⟨1, "alice"⟩ emptyDb).2
     5 rfl).1⟩

/-- C10: in `patchChip` and `deleteChip` the id is `parseFloat`ed and
only checked for falsiness: any id whose parsed value is a nonzero
non-`NaN` number passes the id validation — `"3.5"` and `"7abc"`
included — while `"0"` is rejected with `InvalidArgument` (400). -/
theorem chip_id_parseFloat_guard (s : String) (name : Option String)
    (u : UserCtx) (db : Db) :
    (∀ q : JsNumber, jsParseFloat s = some q → q.isZero = false →
      patchChip s name u db ≠
        .error ⟨StatusCodes.BAD_REQUEST, chipExceptionMessages.INVALID_ID⟩ ∧
      deleteChip s u db ≠
        .error ⟨StatusCodes.BAD_REQUEST, chipExceptionMessages.INVALID_ID⟩) ∧
    jsParseFloat "3.5" = some ⟨35, 10⟩ ∧
    JsNumber.isZero ⟨35, 10⟩ = false ∧
    jsParseFloat "7abc" = some ⟨7, 1⟩ ∧
    JsNumber.isZero ⟨7, 1⟩ = false ∧
    jsParseFloat "0" = some ⟨0, 1⟩ ∧
    patchChip "0" name u db =
      .error ⟨StatusCodes.BAD_REQUEST, chipExceptionMessages.INVALID_ID⟩ ∧
    deleteChip "0" u db =
      .error ⟨StatusCodes.BAD_REQUEST, chipExceptionMessages.INVALID_ID⟩ := by
  refine ⟨?_, rfl, rfl, rfl, rfl, rfl, rfl, rfl⟩
  intro q hq hz
  have hmsg : chipExceptionMessages.NAME_REQUIRED ≠
      chipExceptionMessages.INVALID_ID := by decide
  have hst : StatusCodes.NOT_FOUND ≠ StatusCodes.BAD_REQUEST := by decide
  constructor
  · intro h
    unfold patchChip at h
    rw [hq] at h
    simp only [jsFalsyNum, hz, Bool.false_eq_true, if_false] at h
    split at h
    · exact hmsg (congrArg HttpError.message (Except.error.inj h))
    · split at h
      · exact hst (congrArg HttpError.status (Except.error.inj h))
      · exact Except.noConfusion h
  · intro h
    unfold deleteChip at h
    rw [hq] at h
    simp only [jsFalsyNum, hz, Bool.false_eq_true, if_false] at h
    split at h
    · exact hst (congrArg HttpError.status (Except.error.inj h))
    · exact Except.noConfusion h

/-- C10 witness: the guard theorem applied at the id `"3.5"`. -/
theorem chip_id_parseFloat_guard_witness :
    patchChip "3.5" (some "n") ⟨1, "alice"⟩ emptyDb ≠
      .error ⟨StatusCodes.BAD_REQUEST, chipExceptionMessages.INVALID_ID⟩ ∧
    deleteChip "3.5" ⟨1, "alice"⟩ emptyDb ≠
      .error ⟨StatusCodes.BAD_REQUEST, chipExceptionMessages.INVALID_ID⟩ :=
  (chip_id_parseFloat_guard "3.5" (some "n") ⟨1, "alice"⟩ emptyDb).1
    ⟨35, 10⟩ rfl rfl

/-- Every folder row still stored after `remove fid` that carries the
removed id has its soft-delete flag set. -/
theorem remove_sets_isdeleted (db : Db) (fid : Int) :
    ∀ r ∈ (remove fid db).folders, r.id = fid → r.isdeleted = true := by
  intro r hr hid
  simp only [remove, List.mem_map] at hr
  obtain ⟨a, _, rfl⟩ := hr
  by_cases h : a.id = fid
  · rw [if_pos h]
  · rw [if_neg h] at hid
    exact absurd hid h

/-- C3: after `deleteFolder(f.id)` none of the read paths returns `f`:
the soft-delete flag is set by the delete and every read filters on the
flag being false. -/
theorem deleteFolder_hides_folder (db : Db) (u fid pid : Int) :
    (∀ v ∈ fetchAllParent u (remove fid db), v.id ≠ fid) ∧
    (∀ v ∈ fetchAllNested u pid (remove fid db), v.id ≠ fid) ∧
    fetchById fid (remove fid db) = none := by
  refine ⟨?_, ?_, ?_⟩
  · intro v hv
    simp only [fetchAllParent, List.mem_map, List.mem_filter,
      decide_eq_true_eq] at hv
    obtain ⟨r, ⟨hr, _, _, hdel⟩, rfl⟩ := hv
    intro hid
    simp only [folderView] at hid
    rw [remove_sets_isdeleted db fid r hr hid] at hdel
    cases hdel
  · intro v hv
    simp only [fetchAllNested, List.mem_map, List.mem_filter,
      decide_eq_true_eq] at hv
    obtain ⟨r, ⟨hr, _, _, hdel⟩, rfl⟩ := hv
    intro hid
    simp only [folderView] at hid
    rw [remove_sets_isdeleted db fid r hr hid] at hdel
    cases hdel
  · unfold fetchById
    rw [List.find?_eq_none.mpr]
    · rfl
    · intro r hr
      simp only [decide_eq_true_eq, not_and]
      intro hid hdel
      rw [remove_sets_isdeleted db fid r hr hid] at hdel
      cases hdel

/-- C2: through the controller, deleting a folder fails with `NotFound`
(404) when no non-deleted folder with that id exists, otherwise sets
the folder's soft-delete flag; the existence check precedes the
storage-level update, which is itself idempotent. -/
theorem deleteFolders_notfound_or_softdelete (idParam : String) (fid : Int)
    (db : Db) (hparse : jsParseInt idParam = some fid) (h0 : fid ≠ 0) :
    (fetchById fid db = none →
      deleteFolders idParam db =
        .error ⟨StatusCodes.NOT_FOUND,
                folderExceptionMessages.FOLDER_NOT_FOUND⟩) ∧
    (∀ v : FolderView, fetchById fid db = some v →
      deleteFolders idParam db = .ok (remove fid db) ∧
      ∀ r ∈ (remove fid db).folders, r.id = fid → r.isdeleted = true) ∧
    remove fid (remove fid db) = remove fid db := by
  have hctl : deleteFolders idParam db = removeFolder fid db := by
    unfold deleteFolders
    rw [hparse]
    exact if_neg h0
  refine ⟨?_, ?_, ?_⟩
  · intro hnone
    rw [hctl]
    unfold removeFolder
    rw [hnone]
  · intro v hsome
    refine ⟨?_, remove_sets_isdeleted db fid⟩
    rw [hctl]
    unfold removeFolder
    rw [hsome]
  · unfold remove
    simp only []
    congr 1
    rw [List.map_map]
    refine List.map_congr_left ?_
    intro a _
    by_cases h : a.id = fid <;> simp [h]

/-- C2 witness: the theorem applied over a store holding folder 5, at
the existing id 5 and the missing id 7. -/
theorem deleteFolders_notfound_or_softdelete_witness :
    deleteFolders "5" dbWithFolder5 = .ok (remove 5 dbWithFolder5) ∧
    deleteFolders "7" dbWithFolder5 =
      .error ⟨StatusCodes.NOT_FOUND,
              folderExceptionMessages.FOLDER_NOT_FOUND⟩ :=
  ⟨((deleteFolders_notfound_or_softdelete "5" 5 dbWithFolder5 rfl
      (by decide)).2.1 ⟨5, "Old", 1, 1, none, some defaultFolderImageUrl⟩
      rfl).1,
   (deleteFolders_notfound_or_softdelete "7" 7 dbWithFolder5 rfl
      (by decide)).1 rfl⟩

/-- C4: a folder patch merges only `name`, `image_id` and `updated_by`
over the current row — `user_id`, the parent `folder_id`, `created_by`,
`isdeleted` and the id of every folder are preserved — and an empty
(or missing) name fails with `InvalidArgument` (400). -/
theorem patchFolders_frame (idParam : String) (fid : Int) (nm : String)
    (body_image_id : Option Int) (u : UserCtx) (file : Option UploadedFile)
    (db : Db) (hparse : jsParseInt idParam = some fid) (h0 : fid ≠ 0)
    (hnm : nm ≠ "") (hnodup : (db.folders.map FolderRow.id).Nodup) :
    (patchFolders idParam none body_image_id u file db =
      .error ⟨StatusCodes.BAD_REQUEST,
              folderExceptionMessages.NAME_REQUIRED⟩) ∧
    (patchFolders idParam (some "") body_image_id u file db =
      .error ⟨StatusCodes.BAD_REQUEST,
              folderExceptionMessages.NAME_REQUIRED⟩) ∧
    (∀ db' : Db,
      patchFolders idParam (some nm) body_image_id u file db = .ok db' →
      ∀ r ∈ db.folders, ∃ r', r' ∈ db'.folders ∧
        r'.id = r.id ∧ r'.user_id = r.user_id ∧
        r'.folder_id = r.folder_id ∧ r'.created_by = r.created_by ∧
        r'.isdeleted = r.isdeleted ∧
        (r.id = fid → r'.name = nm ∧ r'.updated_by = u.username) ∧
        (r.id ≠ fid → r' = r)) := by
  have hnamecond : ¬(some nm = none ∨ some nm = some "") := by
    simp [hnm]
  refine ⟨?_, ?_, ?_⟩
  · unfold patchFolders
    rw [hparse]
    exact (if_neg h0).trans (if_pos (Or.inl rfl))
  · unfold patchFolders
    rw [hparse]
    exact (if_neg h0).trans (if_pos (Or.inr rfl))
  · intro db' hok r hr
    have hinj := List.inj_on_of_nodup_map hnodup
    simp only [patchFolders, hparse] at hok
    rw [if_neg h0, if_neg hnamecond] at hok
    -- in both file branches the intermediate state keeps `db.folders`
    obtain ⟨db1, image_id, hdb1, hfolders⟩ :
        ∃ db1 image_id,
          (match file with
            | some f =>
              let imageUrl := uploadImage f.path
              let (db'', image) := saveImage
                { url := imageUrl, type := "user", name := f.filename,
                  isdeleted := false } u.username db
              (db'', some image.id)
            | none => (db, body_image_id)) = (db1, image_id) ∧
          db1.folders = db.folders := by
      cases file with
      | none => exact ⟨db, body_image_id, rfl, rfl⟩
      | some f => exact ⟨_, _, rfl, rfl⟩
    rw [hdb1] at hok
    simp only [] at hok
    cases hfind : findFolderById fid db1 with
    | error e =>
      rw [hfind] at hok
      exact Except.noConfusion hok
    | ok cur =>
      rw [hfind] at hok
      have hdb' : db' = updateFolder
          { id := cur.id, name := nm,
            image_id := jsOrInt image_id cur.image_id,
            user_id := cur.user_id, folder_id := cur.folder_id,
            updated_by := u.username } fid db1 :=
        (Except.ok.inj hok).symm
      -- the fetched row: first non-deleted row with the patched id
      obtain ⟨r0, hr0mem, hr0id, hr0del, hcur⟩ :
          ∃ r0, r0 ∈ db1.folders ∧ r0.id = fid ∧ r0.isdeleted = false ∧
            cur = folderView db1 r0 := by
        unfold findFolderById at hfind
        cases hfetch : fetchById fid db1 with
        | none => rw [hfetch] at hfind; exact Except.noConfusion hfind
        | some v =>
          rw [hfetch] at hfind
          unfold fetchById at hfetch
          cases hfind0 : List.find? (fun r =>
              decide (r.id = fid ∧ r.isdeleted = false)) db1.folders with
          | none => rw [hfind0] at hfetch; exact Option.noConfusion hfetch
          | some r0 =>
            rw [hfind0] at hfetch
            have hp := List.find?_some hfind0
            simp only [decide_eq_true_eq] at hp
            refine ⟨r0, List.mem_of_find?_eq_some hfind0, hp.1, hp.2, ?_⟩
            rw [← Except.ok.inj hfind, ← Option.some.inj hfetch]
    -- now the frame conditions, row by row
      subst hdb'
      by_cases hid : r.id = fid
      · have hreq : r = r0 := by
          apply hinj hr (hfolders ▸ hr0mem)
          rw [hid, hr0id]
        refine ⟨{ r with
                    id := cur.id,
                    name := nm,
                    image_id := jsOrInt image_id cur.image_id,
                    user_id := cur.user_id,
                    folder_id := cur.folder_id,
                    updated_by := u.username }, ?_, ?_⟩
        · unfold updateFolder update
          simp only [hfolders, List.mem_map]
          exact ⟨r, hr, by rw [if_pos hid]⟩
        · subst hcur hreq
          simp [folderView, hid]
      · refine ⟨r, ?_, rfl, rfl, rfl, rfl, rfl, fun h => absurd h hid,
          fun _ => rfl⟩
        unfold updateFolder update
        simp only [hfolders, List.mem_map]
        exact ⟨r, hr, by rw [if_neg hid]⟩

/-- C4 witness: the frame theorem applied over the store holding folder
5, with the empty-name conjunct extracted. -/
theorem patchFolders_frame_witness :
    patchFolders "5" none none ⟨1, "alice"⟩ none dbWithFolder5 =
      .error ⟨StatusCodes.BAD_REQUEST,
              folderExceptionMessages.NAME_REQUIRED⟩ :=
  (patchFolders_frame "5" 5 "New" none ⟨1, "alice"⟩ none dbWithFolder5
    rfl (by decide) (by decide) (by decide)).1

/-- C1 (code bug): with an uploaded file, `postFolders` saves the
uploaded image row but builds the folder with
`image_id: await isImage(user.username)`, so the created folder points
at the placeholder image (id 1), never at the saved uploaded image
(id 2). -/
theorem postFolders_ignores_uploaded_image :
    (postFoldersUploadRun.1.images.map ImageRow.name =
      ["placeholder", "a.png"]) ∧
    (∃ uploaded ∈ postFoldersUploadRun.1.images,
      uploaded.name = "a.png" ∧
      ∀ f ∈ postFoldersUploadRun.1.folders, f.image_id ≠ uploaded.id) ∧
    (postFoldersUploadRun.1.folders.map FolderRow.image_id =
      [placeholderImage.id]) := by
  refine ⟨rfl, ?_, rfl⟩
  decide

/-- C7 (code bug): the image row saved during a folder patch is stored
with type `user`, not `folder`: after a patch with an uploaded file the
image table holds the placeholder (type `folder`) and the newly saved
image typed `user`. -/
theorem patchFolders_saves_user_typed_image :
    patchFoldersUploadRun.toOption.map
        (fun d => d.images.map (fun i => (i.name, i.type))) =
      some [("placeholder", "folder"), ("b.png", "user")] ∧
    "user" ≠ "folder" :=
  ⟨rfl, by decide⟩
